import Mathlib

/-!
Verification of the query-orchestration core of the panel-mcp-server
repository: model resolution (`src/providers/index.ts`), the concurrency
gate (`src/providers/rate-limiter.ts`), the single-query executor and
fan-out aggregator (`src/providers/index.ts`), and the debate /
critique / challenge workflow tools (`src/index.ts`).

The TypeScript source is shallowly embedded: pure functions become Lean
functions, the semaphore becomes an explicit state machine over operation
traces, and remote calls (`generateText`) become oracle parameters giving
the settled outcome of each call.
-/

namespace Panel

/-- The closed set of providers, from `ProviderType` in `src/types.ts`. -/
inductive ProviderType where
  | openrouter
  | openai
  | anthropic
  | google
  | mistral
deriving DecidableEq, Repr

/-- Credential-presence flags for each provider: the result of
`isProviderConfigured` for each member of the closed provider set
(`src/providers/config.ts`, observed through its callers and tests:
a provider is configured iff its API-key environment variable is set). -/
structure ProviderConfig where
  openrouter : Bool
  openai : Bool
  anthropic : Bool
  google : Bool
  mistral : Bool
deriving DecidableEq, Repr

/-- `isProviderConfigured(provider)` from `src/providers/config.ts`,
as a lookup into the credential-presence flags. -/
def isProviderConfigured (cfg : ProviderConfig) : ProviderType → Bool
  | ProviderType.openrouter => cfg.openrouter
  | ProviderType.openai => cfg.openai
  | ProviderType.anthropic => cfg.anthropic
  | ProviderType.google => cfg.google
  | ProviderType.mistral => cfg.mistral

/-- `PROVIDER_PREFIXES` from `src/constants.ts`. -/
def providerPrefixOf : ProviderType → String
  | ProviderType.openrouter => "openrouter/"
  | ProviderType.openai => "openai/"
  | ProviderType.anthropic => "anthropic/"
  | ProviderType.google => "google/"
  | ProviderType.mistral => "mistral/"

/-- JavaScript `String.prototype.startsWith`, on the character lists of
the two strings. -/
def strStartsWith (s pre : String) : Bool :=
  pre.toList.isPrefixOf s.toList

/-- JavaScript `String.prototype.slice(n)` for a non-negative index. -/
def strDrop (s : String) (n : Nat) : String :=
  String.mk (s.toList.drop n)

/-- `ParsedModel` from `src/providers/index.ts`. -/
structure ParsedModel where
  provider : ProviderType
  model : String
deriving DecidableEq, Repr

/-- The non-openrouter entries of `PROVIDER_PREFIXES` in object-literal
(insertion) order, as produced by
`Object.entries(PROVIDER_PREFIXES).filter(([p]) => p !== "openrouter")`. -/
def directProviderEntries : List (ProviderType × String) :=
  [(ProviderType.openai, "openai/"),
   (ProviderType.anthropic, "anthropic/"),
   (ProviderType.google, "google/"),
   (ProviderType.mistral, "mistral/")]

/-- The `for (const [provider, prefix] of providerEntries)` loop of
`parseModelString`: first matching entry wins. -/
def matchProviderEntries (modelString : String) :
    List (ProviderType × String) → Option ParsedModel
  | [] => none
  | (p, pre) :: rest =>
    if strStartsWith modelString pre then
      some ⟨p, strDrop modelString pre.length⟩
    else
      matchProviderEntries modelString rest

/-- `parseModelString` from `src/providers/index.ts`: the openrouter
prefix is checked first, then the direct provider prefixes in order, then
the whole string defaults to an openrouter-relative path when openrouter
is configured, and otherwise resolution fails naming the string. -/
def parseModelString (cfg : ProviderConfig) (modelString : String) :
    Except String ParsedModel :=
  if strStartsWith modelString (providerPrefixOf ProviderType.openrouter) then
    Except.ok ⟨ProviderType.openrouter,
      strDrop modelString (providerPrefixOf ProviderType.openrouter).length⟩
  else
    match matchProviderEntries modelString directProviderEntries with
    | some pm => Except.ok pm
    | none =>
      if isProviderConfigured cfg ProviderType.openrouter then
        Except.ok ⟨ProviderType.openrouter, modelString⟩
      else
        Except.error ("Cannot determine provider for model: " ++ modelString ++
          ". Use a provider prefix (e.g., openai/gpt-4o).")

/-- A resolved endpoint: the provider whose SDK instance is invoked and
the model path handed to it.  This is the observable identity of the
`LanguageModel` value built by `resolveModel`. -/
structure Endpoint where
  provider : ProviderType
  modelPath : String
deriving DecidableEq, Repr

/-- `getModelWithFallback` from `src/providers/index.ts`: prefer the
directly configured provider, otherwise route the provider-qualified
path through OpenRouter when it is configured. -/
def getModelWithFallback (cfg : ProviderConfig) (direct : Option Endpoint)
    (openRouterModelPath : String) : Option Endpoint :=
  match direct with
  | some d => some d
  | none =>
    if isProviderConfigured cfg ProviderType.openrouter then
      some ⟨ProviderType.openrouter, openRouterModelPath⟩
    else
      none

/-- functype `Option.toEither(err)` as used by `resolveModel`. -/
def optionToEither (o : Option α) (err : String) : Except String α :=
  match o with
  | some a => Except.ok a
  | none => Except.error err

/-- `resolveModel` from `src/providers/index.ts`: parse the identifier,
then dispatch on the parsed provider, binding directly when its key is
present and otherwise falling back to OpenRouter (note the `mistralai/`
OpenRouter namespace for mistral). -/
def resolveModel (cfg : ProviderConfig) (modelString : String) :
    Except String Endpoint :=
  (parseModelString cfg modelString).bind fun pm =>
    match pm.provider with
    | ProviderType.openrouter =>
      optionToEither
        (if isProviderConfigured cfg ProviderType.openrouter then
          some ⟨ProviderType.openrouter, pm.model⟩
        else none)
        "OpenRouter API key not configured. Set OPENROUTER_API_KEY environment variable."
    | ProviderType.openai =>
      optionToEither
        (getModelWithFallback cfg
          (if isProviderConfigured cfg ProviderType.openai then
            some ⟨ProviderType.openai, pm.model⟩
          else none)
          ("openai/" ++ pm.model))
        "OpenAI API key not configured. Set OPENAI_API_KEY or OPENROUTER_API_KEY."
    | ProviderType.anthropic =>
      optionToEither
        (getModelWithFallback cfg
          (if isProviderConfigured cfg ProviderType.anthropic then
            some ⟨ProviderType.anthropic, pm.model⟩
          else none)
          ("anthropic/" ++ pm.model))
        "Anthropic API key not configured. Set ANTHROPIC_API_KEY or OPENROUTER_API_KEY."
    | ProviderType.google =>
      optionToEither
        (getModelWithFallback cfg
          (if isProviderConfigured cfg ProviderType.google then
            some ⟨ProviderType.google, pm.model⟩
          else none)
          ("google/" ++ pm.model))
        "Google API key not configured. Set GOOGLE_GENERATIVE_AI_API_KEY or OPENROUTER_API_KEY."
    | ProviderType.mistral =>
      optionToEither
        (getModelWithFallback cfg
          (if isProviderConfigured cfg ProviderType.mistral then
            some ⟨ProviderType.mistral, pm.model⟩
          else none)
          ("mistralai/" ++ pm.model))
        "Mistral API key not configured. Set MISTRAL_API_KEY or OPENROUTER_API_KEY."

/-- The OpenRouter fallback path used by `resolveModel` for each direct
provider (statement helper, read off the call sites of
`getModelWithFallback`). -/
def routerPathOf : ProviderType → String → String
  | ProviderType.openrouter, m => m
  | ProviderType.openai, m => "openai/" ++ m
  | ProviderType.anthropic, m => "anthropic/" ++ m
  | ProviderType.google, m => "google/" ++ m
  | ProviderType.mistral, m => "mistralai/" ++ m

/-- The missing-credential error message of `resolveModel` for each
parsed provider (statement helper; each message names the provider's
API-key environment variable). -/
def missingCredentialError : ProviderType → String
  | ProviderType.openrouter =>
    "OpenRouter API key not configured. Set OPENROUTER_API_KEY environment variable."
  | ProviderType.openai =>
    "OpenAI API key not configured. Set OPENAI_API_KEY or OPENROUTER_API_KEY."
  | ProviderType.anthropic =>
    "Anthropic API key not configured. Set ANTHROPIC_API_KEY or OPENROUTER_API_KEY."
  | ProviderType.google =>
    "Google API key not configured. Set GOOGLE_GENERATIVE_AI_API_KEY or OPENROUTER_API_KEY."
  | ProviderType.mistral =>
    "Mistral API key not configured. Set MISTRAL_API_KEY or OPENROUTER_API_KEY."

/-- `QueryResult` from `src/types.ts`: `ModelResponse | ModelError`.
The `success` constructor carries `model`, `text`, `latencyMs`; the
`failure` constructor carries `model`, `error`.  (`actualModel` is an
optional passthrough field never inspected by the orchestration core and
is omitted.) -/
inductive QueryResult where
  | success (model : String) (text : String) (latencyMs : Nat)
  | failure (model : String) (error : String)
deriving DecidableEq, Repr

/-- The `"text" in r` type guard `isModelResponse` from `src/types.ts`. -/
def isModelResponse : QueryResult → Bool
  | QueryResult.success _ _ _ => true
  | QueryResult.failure _ _ => false

/-- The `"error" in r` type guard `isModelError` from `src/types.ts`. -/
def isModelError : QueryResult → Bool
  | QueryResult.success _ _ _ => false
  | QueryResult.failure _ _ => true

/-- The `model` field present on both variants of `QueryResult`. -/
def QueryResult.modelOf : QueryResult → String
  | QueryResult.success m _ _ => m
  | QueryResult.failure m _ => m

/-- `queryModel` from `src/providers/index.ts`, instrumented with the
number of transport invocations.  The remote call
`withRateLimit(() => generateText(...))` is abstracted by the `transport`
oracle giving the settled outcome of that gated call (ok text, or the
caught error message produced by `tryCatchAsync`); `elapsed` is the
wall-clock latency `Date.now() - startTime` observed by the executor.
On a resolution failure the function returns the error as a `Failure`
record without invoking the transport (count 0). -/
def queryModelRun (cfg : ProviderConfig) (modelString : String)
    (transport : Except String String) (elapsed : Nat) : QueryResult × Nat :=
  match resolveModel cfg modelString with
  | Except.error err => (QueryResult.failure modelString err, 0)
  | Except.ok _ =>
    match transport with
    | Except.error e => (QueryResult.failure modelString e, 1)
    | Except.ok text => (QueryResult.success modelString text elapsed, 1)

/-- The `QueryResult` value returned by `queryModel`. -/
def queryModel (cfg : ProviderConfig) (modelString : String)
    (transport : Except String String) (elapsed : Nat) : QueryResult :=
  (queryModelRun cfg modelString transport elapsed).1

/-- `queryModels` from `src/providers/index.ts`: one `queryModel` call
per identifier (each with its own transport outcome), partitioned by the
`"text" in r` / `"error" in r` guards into responses and errors. -/
def queryModels (cfg : ProviderConfig) (models : List String)
    (transport : String → Except String String) (elapsed : String → Nat) :
    List QueryResult × List QueryResult :=
  let results := models.map fun m => queryModel cfg m (transport m) (elapsed m)
  (results.filter isModelResponse, results.filter isModelError)

/-- The metadata the `council_query` tool (`src/index.ts`) attaches to a
fan-out result: `successCount` is `responses.size` and `failedModels`
maps each error to its model. -/
structure CouncilMetadata where
  successCount : Nat
  failedModels : List String
deriving DecidableEq, Repr

/-- The `council_query` result assembly from `src/index.ts` (responses,
errors and metadata; latency is timing-dependent and omitted). -/
def councilQuery (cfg : ProviderConfig) (models : List String)
    (transport : String → Except String String) (elapsed : String → Nat) :
    List QueryResult × List QueryResult × CouncilMetadata :=
  let out := queryModels cfg models transport elapsed
  (out.1, out.2, ⟨out.1.length, out.2.map QueryResult.modelOf⟩)

/-- Operations on the shared `Semaphore` of
`src/providers/rate-limiter.ts`, tagged with a task identifier. -/
inductive SemOp where
  | acq (t : Nat)
  | rel (t : Nat)
deriving DecidableEq, Repr

/-- State of the `Semaphore` class: the `permits` counter and the FIFO
`waitQueue`, plus the set of tasks currently inside the guarded section
(`running`) and two ghost histories used to state fairness: every task
ever enqueued, and every task ever woken by a hand-off, both in order. -/
structure SemState where
  permits : Nat
  waitQueue : List Nat
  running : List Nat
  enqueued : List Nat
  woken : List Nat
deriving DecidableEq, Repr

/-- A freshly constructed `new Semaphore(p)`: `p` permits, empty queue,
nobody running. -/
def initSem (p : Nat) : SemState :=
  ⟨p, [], [], [], []⟩

/-- One semaphore operation, following `acquire()` and `release()` from
`src/providers/rate-limiter.ts` exactly: `acquire` decrements and enters
the guarded section when permits remain, otherwise pushes the caller
onto the wait queue; `release` shifts the oldest waiter and hands the
permit to it directly (the counter is not touched and the woken task
enters the guarded section without decrementing), and only increments
the counter when the queue is empty.  JavaScript runs these to
completion atomically between `await` points, so interleavings are
exactly sequences of these atomic operations. -/
def semStep (s : SemState) : SemOp → SemState
  | SemOp.acq t =>
    if 0 < s.permits then
      { s with permits := s.permits - 1, running := t :: s.running }
    else
      { s with waitQueue := s.waitQueue ++ [t], enqueued := s.enqueued ++ [t] }
  | SemOp.rel t =>
    let s1 := { s with running := s.running.erase t }
    match s1.waitQueue with
    | [] => { s1 with permits := s1.permits + 1 }
    | w :: rest =>
      { s1 with waitQueue := rest, running := w :: s1.running,
                woken := s1.woken ++ [w] }

/-- Run a trace of semaphore operations. -/
def semRun (s : SemState) : List SemOp → SemState
  | [] => s
  | op :: ops => semRun (semStep s op) ops

/-- An operation is well-formed in a state when a task only releases a
permit it holds (which `withPermit` guarantees for its callers). -/
def validOp (s : SemState) : SemOp → Bool
  | SemOp.acq _ => true
  | SemOp.rel t => s.running.contains t

/-- A well-formed trace: every operation is valid in the state it runs
in. -/
def validTrace : SemState → List SemOp → Bool
  | _, [] => true
  | s, op :: ops => validOp s op && validTrace (semStep s op) ops

/-- `withPermit(fn)` from `src/providers/rate-limiter.ts` for task `t`,
where `outcome` is the settled outcome of `await fn()` (a value, or a
thrown error).  `try ... finally` releases on both exit paths, and the
result or exception of `fn` is propagated unchanged. -/
def withPermitRun (t : Nat) (outcome : Except String α) :
    List SemOp × Except String α :=
  match outcome with
  | Except.ok a => ([SemOp.acq t, SemOp.rel t], Except.ok a)
  | Except.error e => ([SemOp.acq t, SemOp.rel t], Except.error e)

/-- `DebateRound` from `src/types.ts`. -/
structure DebateRound where
  round : Nat
  affirmative : String
  negative : String
deriving DecidableEq, Repr

/-- The `DebateState` of the `debate` tool in `src/index.ts`
(`completedRounds` plus the accumulated transcript), extended with a
ghost index numbering the `queryModel` calls issued so far, which lets
the outcome of each remote call be supplied by an oracle. -/
structure DebateState where
  rounds : List DebateRound
  previousArguments : String
  nextCall : Nat
deriving DecidableEq, Repr

/-- `initialState` of the debate tool (first remote call has index 0). -/
def initialDebateState : DebateState :=
  ⟨[], "", 0⟩

/-- Outcome oracle for the debate: the settled `QueryResult` of the
`i`-th `queryModel(model, prompt)` call issued by the tool. -/
def DebateOracle : Type :=
  Nat → String → String → QueryResult

/-- The string-truthiness conditional
`state.previousArguments ? prev + sep + block : block` used when the
affirmative turn is appended to the transcript (a JavaScript string is
falsy exactly when empty). -/
def appendBlock (prev block : String) : String :=
  if prev = "" then block else prev ++ "\n\n" ++ block

/-- `executeRound` of the `debate` tool in `src/index.ts`: build the
affirmative prompt (with the accumulated transcript for rounds after the
first), query the affirmative model — rejecting the whole debate with
`Affirmative model failed: ...` on error — append the labelled
affirmative turn to the transcript, query the negative model on a prompt
containing the updated transcript — rejecting with
`Negative model failed: ...` on error — and append the completed round
and the labelled negative turn. -/
def executeRound (oracle : DebateOracle) (topic affirmativeModel negativeModel : String)
    (numRounds : Nat) (thoughtContext : String) (s : DebateState) (round : Nat) :
    Except String DebateState :=
  let roundContext :=
    if round = 1 then thoughtContext
    else "\n\nPrevious arguments in this debate:\n" ++ s.previousArguments ++
      "\n\nContinue the debate, responding to the opponent\x27s latest points."
  let affirmativePrompt :=
    "You are participating in a formal debate. You are arguing FOR the following proposition:\n\n\"" ++
    topic ++ "\"\n\nThis is round " ++ toString round ++ " of " ++ toString numRounds ++
    "." ++ roundContext ++ "\n\nPresent your arguments clearly and persuasively. " ++
    (if 1 < round then "Address your opponent\x27s points and strengthen your position."
     else "Make your opening argument.")
  match oracle s.nextCall affirmativeModel affirmativePrompt with
  | QueryResult.failure _ e => Except.error ("Affirmative model failed: " ++ e)
  | QueryResult.success _ affText _ =>
    let affirmativeArg :=
      "Round " ++ toString round ++ " - Affirmative (" ++ affirmativeModel ++ "):\n" ++ affText
    let updatedArgs := appendBlock s.previousArguments affirmativeArg
    let negativePrompt :=
      "You are participating in a formal debate. You are arguing AGAINST the following proposition:\n\n\"" ++
      topic ++ "\"\n\nThis is round " ++ toString round ++ " of " ++ toString numRounds ++
      ".\n\nPrevious arguments in this debate:\n" ++ updatedArgs ++
      "\n\nPresent your counter-arguments clearly and persuasively. Respond to your opponent\x27s points and make your case against the proposition."
    match oracle (s.nextCall + 1) negativeModel negativePrompt with
    | QueryResult.failure _ e => Except.error ("Negative model failed: " ++ e)
    | QueryResult.success _ negText _ =>
      let negativeArg :=
        "Round " ++ toString round ++ " - Negative (" ++ negativeModel ++ "):\n" ++ negText
      Except.ok
        { rounds := s.rounds ++ [⟨round, affText, negText⟩],
          previousArguments := updatedArgs ++ "\n\n" ++ negativeArg,
          nextCall := s.nextCall + 2 }

/-- `DebateResult` from `src/types.ts` (latency omitted as
timing-dependent). -/
structure DebateResult where
  topic : String
  affirmativeModel : String
  negativeModel : String
  rounds : List DebateRound
  totalExchanges : Nat
deriving DecidableEq, Repr

/-- The `debate` tool body from `src/index.ts`: execute rounds
`1..numRounds` strictly sequentially by a monadic fold (the rejecting
`reduce` over promises), then assemble the `DebateResult` with
`totalExchanges = numRounds * 2`.  A rejection in any round aborts the
fold, so no rounds are returned on failure. -/
def runDebate (oracle : DebateOracle) (topic affirmativeModel negativeModel : String)
    (numRounds : Nat) (thoughtContext : String) : Except String DebateResult :=
  (((List.range' 1 numRounds).foldlM
      (executeRound oracle topic affirmativeModel negativeModel numRounds thoughtContext)
      initialDebateState).map
    fun fs =>
      DebateResult.mk topic affirmativeModel negativeModel fs.rounds (numRounds * 2))

/-- Statement helper: the `DebateRound` list built from the per-round
(affirmative, negative) texts, numbered from `r`. -/
def mkRounds (r : Nat) : List (String × String) → List DebateRound
  | [] => []
  | (a, b) :: rest => ⟨r, a, b⟩ :: mkRounds (r + 1) rest

/-- Statement helper: the labelled transcript blocks of the given turns
in round order, affirmative before negative within each round, numbered
from `r` (the labels the debate tool prepends to each turn). -/
def transcriptBlocks (affirmativeModel negativeModel : String) :
    Nat → List (String × String) → List String
  | _, [] => []
  | r, (a, b) :: rest =>
    ("Round " ++ toString r ++ " - Affirmative (" ++ affirmativeModel ++ "):\n" ++ a) ::
    ("Round " ++ toString r ++ " - Negative (" ++ negativeModel ++ "):\n" ++ b) ::
    transcriptBlocks affirmativeModel negativeModel (r + 1) rest

/-- Statement helper: the transcript accumulated after the given turns —
every prior turn's labelled text concatenated in round order. -/
def transcriptOf (affirmativeModel negativeModel : String)
    (ts : List (String × String)) : String :=
  (transcriptBlocks affirmativeModel negativeModel 1 ts).foldl appendBlock ""

/-- The fuel-indexed scanner behind `extractJson`'s
`replace(/(three backticks)(json)?(newline)?/g, "")`: at each position
the longest fence token is removed, otherwise one character is kept.
Fuel is the remaining string length, which every step strictly consumes. -/
def stripFencesAux : Nat → List Char → List Char
  | 0, l => l
  | _ + 1, [] => []
  | fuel + 1, c :: cs =>
    if "```json\n".toList.isPrefixOf (c :: cs) then
      stripFencesAux fuel ((c :: cs).drop 8)
    else if "```json".toList.isPrefixOf (c :: cs) then
      stripFencesAux fuel ((c :: cs).drop 7)
    else if "```\n".toList.isPrefixOf (c :: cs) then
      stripFencesAux fuel ((c :: cs).drop 4)
    else if "```".toList.isPrefixOf (c :: cs) then
      stripFencesAux fuel ((c :: cs).drop 3)
    else
      c :: stripFencesAux fuel cs

/-- `extractJson` from the `critique` and `challenge` tools in
`src/index.ts`: trim, and when the text opens with a code fence, strip
all fence tokens and trim again. -/
def extractJson (text : String) : String :=
  let trimmed := text.trim
  if strStartsWith trimmed "```" then
    (String.mk (stripFencesAux trimmed.toList.length trimmed.toList)).trim
  else
    trimmed

/-- `Critique` from `src/types.ts`. -/
structure Critique where
  strengths : List String
  weaknesses : List String
  suggestions : List String
  overallAssessment : String
deriving DecidableEq, Repr

/-- The shape `JSON.parse` is cast to in the `critique` tool: every
field optional. -/
structure ParsedCritique where
  strengths : Option (List String)
  weaknesses : Option (List String)
  suggestions : Option (List String)
  overallAssessment : Option String
deriving DecidableEq, Repr

/-- The `Try(JSON.parse(extractJson(result.text))).fold(...)` step of the
`critique` tool in `src/index.ts`.  The lenient JSON parser is out of
scope for the core (spec section 1) and is injected as a pure
`text -> Option` oracle; `none` covers both a parse exception and a
non-conforming value.  On failure the tool degrades to an empty record
carrying the raw response text; on success missing optional fields
default to empty lists and the assessment defaults to the raw text. -/
def critiqueOfText (parse : String → Option ParsedCritique) (text : String) :
    Critique :=
  match parse (extractJson text) with
  | none => ⟨[], [], [], text⟩
  | some p =>
    ⟨p.strengths.getD [], p.weaknesses.getD [], p.suggestions.getD [],
     p.overallAssessment.getD text⟩

/-- The `critique` tool after its single `queryModel` call settles: a
query failure is reported as data (`Critique failed: ...`), a success is
post-processed by `critiqueOfText`.  Nothing is thrown past the tool. -/
def critiqueTool (parse : String → Option ParsedCritique) :
    QueryResult → Except String Critique
  | QueryResult.failure _ e => Except.error ("Critique failed: " ++ e)
  | QueryResult.success _ text _ => Except.ok (critiqueOfText parse text)

/-- `ALL_CHALLENGE_TYPES` from `src/constants.ts`. -/
def ALL_CHALLENGE_TYPES : List String :=
  ["logical", "factual", "completeness", "edge_cases", "alternatives"]

/-- The closed severity set of the `Challenge` type in `src/types.ts`
(`"minor" | "moderate" | "significant"`). -/
def SEVERITY_VALUES : List String :=
  ["minor", "moderate", "significant"]

/-- A successful model response as consumed by the `challenge` tool
(`ModelResponse` from `src/types.ts`, optional `actualModel` omitted). -/
structure ModelResponse where
  model : String
  text : String
  latencyMs : Nat
deriving DecidableEq, Repr

/-- The shape each array entry of the challenger output is cast to:
`{challengeType?, challenge?, severity?, reasoning?}`. -/
structure ParsedChallenge where
  challengeType : Option String
  challenge : Option String
  severity : Option String
  reasoning : Option String
deriving DecidableEq, Repr

/-- JavaScript truthiness of an optional string field: present and
non-empty. -/
def truthy : Option String → Bool
  | none => false
  | some s => !(s == "")

/-- `Challenge` from `src/types.ts` (optional `actualModel` omitted;
note `severity` is populated by an unchecked cast in the tool). -/
structure Challenge where
  model : String
  challengeType : String
  challenge : String
  severity : String
  reasoning : String
  latencyMs : Nat
deriving DecidableEq, Repr

/-- The per-entry filter of the `challenge` tool in `src/index.ts`: an
entry is pushed iff its `challengeType` is truthy and a member of
`ALL_CHALLENGE_TYPES` and its `challenge`, `severity` and `reasoning`
fields are truthy.  The `severity` string is cast, not validated. -/
def keepChallenge (rm : String) (rl : Nat) (p : ParsedChallenge) :
    Option Challenge :=
  if truthy p.challengeType &&
      ALL_CHALLENGE_TYPES.contains (p.challengeType.getD "") &&
      truthy p.challenge && truthy p.severity && truthy p.reasoning then
    some ⟨rm, p.challengeType.getD "", p.challenge.getD "",
      p.severity.getD "", p.reasoning.getD "", rl⟩
  else
    none

/-- The parse-and-collect loop of the `challenge` tool in
`src/index.ts`: each response is parsed independently
(`Try(JSON.parse(extractJson(response.text))).fold(() => [], ...)`, with
`none` covering both a parse exception and a non-array value), and the
surviving entries of every response are appended in order. -/
def challengesOf (parse : String → Option (List ParsedChallenge))
    (responses : List ModelResponse) : List Challenge :=
  responses.flatMap fun r =>
    (match parse (extractJson r.text) with
     | none => []
     | some entries => entries).filterMap (keepChallenge r.model r.latencyMs)

/-! ## Shared helper lemmas -/

/-- A partition of query results by the two type guards covers the list. -/
theorem filter_guards_length (l : List QueryResult) :
    (l.filter isModelResponse).length + (l.filter isModelError).length = l.length := by
  induction l with
  | nil => rfl
  | cons r rest ih => cases r <;> simp [List.filter, isModelResponse, isModelError] <;> omega

/-! ## C2 — single-query executor -/

/-- Claim C2: `queryModel` never propagates an uncaught exception: a
resolution failure is returned as `Failure` immediately with no
transport call, a transport error is caught and converted to `Failure`
with the error message, and a transport success yields
`Success{model, text, latencyMs}`; in every case the result is a plain
`QueryResult` carrying the requested model identifier. -/
theorem c2_query_model_total (cfg : ProviderConfig) (ms : String)
    (transport : Except String String) (elapsed : Nat) :
    QueryResult.modelOf (queryModel cfg ms transport elapsed) = ms ∧
    (∀ err, resolveModel cfg ms = Except.error err →
      queryModelRun cfg ms transport elapsed = (QueryResult.failure ms err, 0)) ∧
    (∀ ep e, resolveModel cfg ms = Except.ok ep → transport = Except.error e →
      queryModelRun cfg ms transport elapsed = (QueryResult.failure ms e, 1)) ∧
    (∀ ep t, resolveModel cfg ms = Except.ok ep → transport = Except.ok t →
      queryModelRun cfg ms transport elapsed = (QueryResult.success ms t elapsed, 1)) := by
  refine ⟨?_, ?_, ?_, ?_⟩
  · unfold queryModel queryModelRun
    cases resolveModel cfg ms with
    | error err => rfl
    | ok ep => cases transport <;> rfl
  · intro err h
    unfold queryModelRun
    rw [h]
  · intro ep e h ht
    unfold queryModelRun
    rw [h, ht]
  · intro ep t h ht
    unfold queryModelRun
    rw [h, ht]

/-- Witness for C2 at a concrete unresolvable identifier: with no
provider configured, `"someModel"` matches no prefix, resolution fails,
and the transport is never invoked. -/
theorem c2_query_model_total_witness :
    resolveModel ⟨false, false, false, false, false⟩ "someModel" =
      Except.error ("Cannot determine provider for model: someModel. Use a provider prefix (e.g., openai/gpt-4o).") ∧
    queryModelRun ⟨false, false, false, false, false⟩ "someModel" (Except.ok "hi") 7 =
      (QueryResult.failure "someModel"
        "Cannot determine provider for model: someModel. Use a provider prefix (e.g., openai/gpt-4o).", 0) :=
  ⟨rfl,
   (c2_query_model_total ⟨false, false, false, false, false⟩ "someModel"
      (Except.ok "hi") 7).2.1 _ rfl⟩

/-! ## C3 — fan-out aggregator -/

/-- Claim C3: fanning out over N models of which K fail yields exactly K
`Failure` entries and N−K `Success` entries, and `successCount` equals
N−K; the aggregation is a total function, so it never raises even when
all K = N queries fail. -/
theorem c3_fanout_partition (cfg : ProviderConfig) (models : List String)
    (transport : String → Except String String) (elapsed : String → Nat) :
    (queryModels cfg models transport elapsed).2.length =
      models.countP (fun m => isModelError (queryModel cfg m (transport m) (elapsed m))) ∧
    (queryModels cfg models transport elapsed).1.length +
      (queryModels cfg models transport elapsed).2.length = models.length ∧
    (queryModels cfg models transport elapsed).1.length =
      models.length -
        models.countP (fun m => isModelError (queryModel cfg m (transport m) (elapsed m))) ∧
    (councilQuery cfg models transport elapsed).2.2.successCount =
      models.length -
        models.countP (fun m => isModelError (queryModel cfg m (transport m) (elapsed m))) := by
  have herr : (queryModels cfg models transport elapsed).2.length =
      models.countP (fun m => isModelError (queryModel cfg m (transport m) (elapsed m))) := by
    unfold queryModels
    rw [← List.countP_eq_length_filter, List.countP_map]
    rfl
  have hsum : (queryModels cfg models transport elapsed).1.length +
      (queryModels cfg models transport elapsed).2.length = models.length := by
    unfold queryModels
    simp only
    rw [filter_guards_length, List.length_map]
  refine ⟨herr, hsum, by omega, ?_⟩
  show (queryModels cfg models transport elapsed).1.length = _
  omega

/-! ## C8 — deterministic resolution -/

/-- Claim C8: model-identifier resolution is a pure function of the
identifier string and the configured-provider flags — two runs on equal
inputs produce identical outputs; moreover parsing consults only the
openrouter flag of the configuration. -/
theorem c8_resolution_deterministic (cfg cfg' : ProviderConfig) (s : String)
    (h : cfg.openrouter = cfg'.openrouter) :
    parseModelString cfg s = parseModelString cfg' s ∧
    (cfg = cfg' → resolveModel cfg s = resolveModel cfg' s) := by
  constructor
  · simp only [parseModelString, isProviderConfigured, h]
  · intro he
    rw [he]

/-- Witness for C8: two configurations differing outside the openrouter
flag parse `"anthropic/claude-3"` identically. -/
theorem c8_resolution_deterministic_witness :
    (⟨true, false, false, false, false⟩ : ProviderConfig).openrouter =
      (⟨true, true, true, false, false⟩ : ProviderConfig).openrouter ∧
    parseModelString ⟨true, false, false, false, false⟩ "anthropic/claude-3" =
      parseModelString ⟨true, true, true, false, false⟩ "anthropic/claude-3" :=
  ⟨rfl,
   (c8_resolution_deterministic ⟨true, false, false, false, false⟩
      ⟨true, true, true, false, false⟩ "anthropic/claude-3" rfl).1⟩

/-! ## C9 — critique degradation -/

/-- Claim C9: when the critic query succeeds but its text fails
structured extraction, the critique tool returns — as data, not an
exception — a record whose strengths, weaknesses and suggestions are all
empty and whose overall assessment is the raw response text. -/
theorem c9_critique_degradation (parse : String → Option ParsedCritique)
    (text m : String) (l : Nat) (h : parse (extractJson text) = none) :
    critiqueTool parse (QueryResult.success m text l) =
      Except.ok ⟨[], [], [], text⟩ := by
  simp [critiqueTool, critiqueOfText, h]

/-- Witness for C9 at a concrete non-JSON response. -/
theorem c9_critique_degradation_witness :
    ((fun _ => (none : Option ParsedCritique)) (extractJson "not json at all") = none) ∧
    critiqueTool (fun _ => none) (QueryResult.success "m" "not json at all" 3) =
      Except.ok ⟨[], [], [], "not json at all"⟩ :=
  ⟨rfl, c9_critique_degradation (fun _ => none) "not json at all" "m" 3 rfl⟩

/-! ## C1 / C7 — concurrency gate -/

/-- Permit-accounting invariant of the semaphore: a well-formed trace
preserves the sum of free permits and tasks inside the guarded section. -/
theorem semRun_permits_add_running (ops : List SemOp) :
    ∀ s : SemState, validTrace s ops = true →
      (semRun s ops).permits + (semRun s ops).running.length =
        s.permits + s.running.length := by
  induction ops with
  | nil => intro s _; rfl
  | cons op ops ih =>
    intro s hv
    rw [validTrace, Bool.and_eq_true] at hv
    have hstep : (semStep s op).permits + (semStep s op).running.length =
        s.permits + s.running.length := by
      cases op with
      | acq t =>
        by_cases hp : 0 < s.permits
        · simp [semStep, hp]
          omega
        · simp [semStep, hp]
      | rel t =>
        have hmem : t ∈ s.running := by
          have := hv.1
          rw [validOp] at this
          exact List.elem_iff.mp this
        have hlen : (s.running.erase t).length = s.running.length - 1 :=
          List.length_erase_of_mem hmem
        have hpos : 0 < s.running.length := List.length_pos_of_mem hmem
        cases hq : s.waitQueue with
        | nil => simp [semStep, hq, hlen]; omega
        | cons w rest => simp [semStep, hq, hlen]; omega
    rw [semRun, ih (semStep s op) hv.2, hstep]

/-- FIFO ghost invariant: the enqueue history always splits into the
wake history followed by the current wait queue. -/
theorem semRun_fifo (ops : List SemOp) :
    ∀ s : SemState, s.enqueued = s.woken ++ s.waitQueue →
      (semRun s ops).enqueued = (semRun s ops).woken ++ (semRun s ops).waitQueue := by
  induction ops with
  | nil => intro s h; exact h
  | cons op ops ih =>
    intro s h
    rw [semRun]
    apply ih
    cases op with
    | acq t =>
      by_cases hp : 0 < s.permits
      · simpa [semStep, hp] using h
      · simp [semStep, hp, h, List.append_assoc]
    | rel t =>
      cases hq : s.waitQueue with
      | nil => simp [semStep, hq, h, hq]
      | cons w rest =>
        rw [hq] at h
        simp [semStep, hq, h, List.append_assoc]

/-- Claim C1: along every well-formed operation trace of a gate with `P`
permits, at most `P` tasks are inside the guarded section at once and no
permit is leaked (free permits plus running tasks always equal `P`); and
`withPermit` performs exactly one `acquire` and one `release` on every
exit path — whether the guarded function returns a value or throws — and
propagates the guarded function's outcome unchanged. -/
theorem c1_gate_bound_and_release (P : Nat) (ops : List SemOp) (t : Nat)
    (o : Except String String) (hv : validTrace (initSem P) ops = true) :
    (semRun (initSem P) ops).running.length ≤ P ∧
    (semRun (initSem P) ops).permits + (semRun (initSem P) ops).running.length = P ∧
    ((withPermitRun t o).1.count (SemOp.acq t) = 1 ∧
     (withPermitRun t o).1.count (SemOp.rel t) = 1 ∧
     (withPermitRun t o).2 = o) := by
  have hsum := semRun_permits_add_running ops (initSem P) hv
  have hinit : (initSem P).permits + (initSem P).running.length = P := by
    simp [initSem]
  rw [hinit] at hsum
  refine ⟨by omega, hsum, ?_, ?_, ?_⟩ <;>
    cases o <;> simp [withPermitRun, List.count_cons]

/-- Witness for C1: a two-permit gate with three acquirers — the trace
is well-formed and never exceeds the bound, and a throwing `withPermit`
body still pairs its acquire with a release. -/
theorem c1_gate_bound_and_release_witness :
    validTrace (initSem 2) [SemOp.acq 0, SemOp.acq 1, SemOp.acq 2, SemOp.rel 0] = true ∧
    (semRun (initSem 2) [SemOp.acq 0, SemOp.acq 1, SemOp.acq 2, SemOp.rel 0]).running.length ≤ 2 ∧
    (withPermitRun 7 (Except.error ("boom" : String) : Except String String)).1.count (SemOp.rel 7) = 1 :=
  ⟨by decide,
   (c1_gate_bound_and_release 2 [SemOp.acq 0, SemOp.acq 1, SemOp.acq 2, SemOp.rel 0] 7
      (Except.error "boom") (by decide)).1,
   (c1_gate_bound_and_release 2 [SemOp.acq 0, SemOp.acq 1, SemOp.acq 2, SemOp.rel 0] 7
      (Except.error "boom") (by decide)).2.2.2.1⟩

/-- Claim C7: when `release` runs with a non-empty wait queue, the freed
permit is handed directly to the oldest waiter — the permit counter is
untouched, the head waiter leaves the queue and enters the guarded
section without re-decrementing, and it is recorded as woken; hence over
any trace from a fresh gate the wake history is a prefix of the enqueue
history (FIFO resumption order). -/
theorem c7_release_handoff_fifo (s : SemState) (t w : Nat) (rest : List Nat)
    (P : Nat) (ops : List SemOp) (hq : s.waitQueue = w :: rest) :
    ((semStep s (SemOp.rel t)).permits = s.permits ∧
     (semStep s (SemOp.rel t)).waitQueue = rest ∧
     (semStep s (SemOp.rel t)).running = w :: s.running.erase t ∧
     (semStep s (SemOp.rel t)).woken = s.woken ++ [w]) ∧
    (semRun (initSem P) ops).woken <+: (semRun (initSem P) ops).enqueued := by
  constructor
  · simp [semStep, hq]
  · exact ⟨(semRun (initSem P) ops).waitQueue,
      (semRun_fifo ops (initSem P) rfl).symm⟩

/-- Witness for C7: a release against a queued waiter hands off without
touching the counter, and a concrete overloaded trace wakes the first
enqueued task first. -/
theorem c7_release_handoff_fifo_witness :
    (⟨0, [5], [3], [5], []⟩ : SemState).waitQueue = 5 :: [] ∧
    (semStep ⟨0, [5], [3], [5], []⟩ (SemOp.rel 3)).permits = 0 ∧
    (semRun (initSem 1) [SemOp.acq 0, SemOp.acq 1, SemOp.acq 2, SemOp.rel 0]).woken <+:
      (semRun (initSem 1) [SemOp.acq 0, SemOp.acq 1, SemOp.acq 2, SemOp.rel 0]).enqueued :=
  ⟨rfl,
   (c7_release_handoff_fifo ⟨0, [5], [3], [5], []⟩ 3 5 [] 1
      [SemOp.acq 0, SemOp.acq 1, SemOp.acq 2, SemOp.rel 0] rfl).1.1,
   (c7_release_handoff_fifo ⟨0, [5], [3], [5], []⟩ 3 5 [] 1
      [SemOp.acq 0, SemOp.acq 1, SemOp.acq 2, SemOp.rel 0] rfl).2⟩

/-! ## C10 — challenge parsing -/

/-- Counterexample to claim C10 as stated: a parsed entry whose
`severity` is the non-empty string `"huge"` — outside the closed
severity set — passes the tool's filter (only `challengeType` is
validated against its closed set; `severity` is cast unchecked), so the
retained challenge does not carry a severity drawn from the fixed closed
set. -/
theorem c10_counterexample :
    challengesOf
        (fun _ => some [⟨some "logical", some "c", some "huge", some "r"⟩])
        [⟨"m", "x", 5⟩] =
      [⟨"m", "logical", "c", "huge", "r", 5⟩] ∧
    SEVERITY_VALUES.contains "huge" = false := by
  constructor
  · rfl
  · decide

/-- Claim C10 as amended: each challenger response is parsed
independently — a parse failure contributes zero challenges from that
model without disturbing the others; entries are dropped one by one,
kept exactly when `challengeType` is truthy and in the closed category
set and `challenge`, `severity`, `reasoning` are truthy; and every
retained challenge carries a category from the fixed closed set and a
non-empty severity string — the severity is NOT validated against its
closed set. -/
theorem c10_challenge_parsing_amended
    (parse : String → Option (List ParsedChallenge))
    (rs1 rs2 : List ModelResponse) (r : ModelResponse) :
    (parse (extractJson r.text) = none →
      challengesOf parse (rs1 ++ r :: rs2) = challengesOf parse (rs1 ++ rs2)) ∧
    (∀ entries, parse (extractJson r.text) = some entries →
      challengesOf parse [r] =
        entries.filterMap (keepChallenge r.model r.latencyMs)) ∧
    (∀ (rm : String) (rl : Nat) (p : ParsedChallenge),
      keepChallenge rm rl p ≠ none ↔
        (truthy p.challengeType = true ∧
         ALL_CHALLENGE_TYPES.contains (p.challengeType.getD "") = true ∧
         truthy p.challenge = true ∧
         truthy p.severity = true ∧
         truthy p.reasoning = true)) ∧
    (∀ c : Challenge, c ∈ challengesOf parse (rs1 ++ r :: rs2) →
      ALL_CHALLENGE_TYPES.contains c.challengeType = true ∧
      c.severity ≠ "") := by
  refine ⟨?_, ?_, ?_, ?_⟩
  · intro h
    simp [challengesOf, h]
  · intro entries h
    simp [challengesOf, h]
  · intro rm rl p
    unfold keepChallenge
    by_cases hcond : (truthy p.challengeType &&
        ALL_CHALLENGE_TYPES.contains (p.challengeType.getD "") &&
        truthy p.challenge && truthy p.severity && truthy p.reasoning) = true
    · rw [if_pos hcond]
      simp only [Bool.and_eq_true] at hcond
      constructor
      · intro _
        exact ⟨hcond.1.1.1.1, hcond.1.1.1.2, hcond.1.1.2, hcond.1.2, hcond.2⟩
      · intro _
        simp
    · rw [if_neg hcond]
      constructor
      · intro hne
        exact absurd rfl hne
      · intro hp
        exact absurd (by rw [hp.1, hp.2.1, hp.2.2.1, hp.2.2.2.1, hp.2.2.2.2]; rfl) hcond
  · intro c hc
    unfold challengesOf at hc
    rw [List.mem_flatMap] at hc
    obtain ⟨resp, _, hmem⟩ := hc
    rw [List.mem_filterMap] at hmem
    obtain ⟨p, _, hkeep⟩ := hmem
    unfold keepChallenge at hkeep
    split at hkeep
    next hcond =>
      simp only [Bool.and_eq_true] at hcond
      obtain ⟨⟨⟨⟨_, htype⟩, _⟩, hsev⟩, _⟩ := hcond
      cases hkeep
      refine ⟨htype, ?_⟩
      cases hps : p.severity with
      | none => rw [hps] at hsev; simp [truthy] at hsev
      | some sv =>
        rw [hps] at hsev
        simp only [truthy, Bool.not_eq_true', beq_eq_false_iff_ne, ne_eq] at hsev
        simpa [hps] using hsev
    next => cases hkeep

/-- Witness for C10 (amended): a batch where the first model's output
fails to parse contributes zero challenges and leaves the other
responses untouched. -/
theorem c10_challenge_parsing_amended_witness :
    ((fun t => if t = extractJson "bad" then (none : Option (List ParsedChallenge)) else
        some [⟨some "logical", some "c", some "sig", some "r"⟩])
      (extractJson ("bad" : String)) = none) ∧
    challengesOf
        (fun t => if t = extractJson "bad" then (none : Option (List ParsedChallenge)) else
          some [⟨some "logical", some "c", some "sig", some "r"⟩])
        ([] ++ (⟨"m1", "bad", 1⟩ : ModelResponse) :: [⟨"m2", "good", 2⟩]) =
      challengesOf
        (fun t => if t = extractJson "bad" then (none : Option (List ParsedChallenge)) else
          some [⟨some "logical", some "c", some "sig", some "r"⟩])
        ([] ++ [⟨"m2", "good", 2⟩]) :=
  ⟨if_pos rfl,
   (c10_challenge_parsing_amended
      (fun t => if t = extractJson "bad" then (none : Option (List ParsedChallenge)) else
        some [⟨some "logical", some "c", some "sig", some "r"⟩])
      [] [⟨"m2", "good", 2⟩] ⟨"m1", "bad", 1⟩).1 (if_pos rfl)⟩

/-! ## C4 — resolution algorithm -/

/-- Two prefixes of the same string are comparable, so a string starting
with one of two mutually non-prefix strings cannot start with the other. -/
theorem startsWith_excl {s pre1 pre2 : String}
    (h1 : strStartsWith s pre1 = true)
    (h2 : pre1.toList.isPrefixOf pre2.toList = false)
    (h3 : pre2.toList.isPrefixOf pre1.toList = false) :
    strStartsWith s pre2 = false := by
  unfold strStartsWith at h1 ⊢
  rw [List.isPrefixOf_iff_prefix] at h1
  cases hb : pre2.toList.isPrefixOf s.toList with
  | false => rfl
  | true =>
    rw [List.isPrefixOf_iff_prefix] at hb
    rcases List.prefix_or_prefix_of_prefix h1 hb with h | h
    · rw [← List.isPrefixOf_iff_prefix] at h
      rw [h] at h2
      exact absurd h2 (by simp)
    · rw [← List.isPrefixOf_iff_prefix] at h
      rw [h] at h3
      exact absurd h3 (by simp)

/-- Claim C4: the resolution algorithm.  Parsing checks the
cross-provider `openrouter/` prefix before every direct provider prefix
and strips the matched prefix into the model name; an identifier
matching no prefix parses as an openrouter-relative path when openrouter
is configured and otherwise fails with an error naming the identifier.
Endpoint construction binds directly when the parsed provider's
credential is present, falls back to the openrouter namespace
(provider-qualified path) when it is not but openrouter is configured,
and otherwise fails with the message naming the missing credential. -/
theorem c4_resolution_algorithm (cfg : ProviderConfig) (s : String) :
    (strStartsWith s "openrouter/" = true →
      parseModelString cfg s =
        Except.ok ⟨ProviderType.openrouter, strDrop s "openrouter/".length⟩) ∧
    (strStartsWith s "openai/" = true →
      parseModelString cfg s =
        Except.ok ⟨ProviderType.openai, strDrop s "openai/".length⟩) ∧
    (strStartsWith s "anthropic/" = true →
      parseModelString cfg s =
        Except.ok ⟨ProviderType.anthropic, strDrop s "anthropic/".length⟩) ∧
    (strStartsWith s "google/" = true →
      parseModelString cfg s =
        Except.ok ⟨ProviderType.google, strDrop s "google/".length⟩) ∧
    (strStartsWith s "mistral/" = true →
      parseModelString cfg s =
        Except.ok ⟨ProviderType.mistral, strDrop s "mistral/".length⟩) ∧
    ((∀ p : ProviderType, strStartsWith s (providerPrefixOf p) = false) →
      (cfg.openrouter = true →
        parseModelString cfg s = Except.ok ⟨ProviderType.openrouter, s⟩) ∧
      (cfg.openrouter = false →
        parseModelString cfg s =
          Except.error ("Cannot determine provider for model: " ++ s ++
            ". Use a provider prefix (e.g., openai/gpt-4o)."))) ∧
    (∀ pm : ParsedModel, parseModelString cfg s = Except.ok pm →
      (isProviderConfigured cfg pm.provider = true →
        resolveModel cfg s = Except.ok ⟨pm.provider, pm.model⟩) ∧
      (isProviderConfigured cfg pm.provider = false → cfg.openrouter = true →
        resolveModel cfg s =
          Except.ok ⟨ProviderType.openrouter, routerPathOf pm.provider pm.model⟩) ∧
      (isProviderConfigured cfg pm.provider = false → cfg.openrouter = false →
        resolveModel cfg s = Except.error (missingCredentialError pm.provider))) := by
  refine ⟨?_, ?_, ?_, ?_, ?_, ?_, ?_⟩
  · intro h
    simp [parseModelString, providerPrefixOf, h]
  · intro h
    have hr : strStartsWith s "openrouter/" = false :=
      startsWith_excl h (by decide) (by decide)
    simp [parseModelString, providerPrefixOf, matchProviderEntries,
      directProviderEntries, hr, h]
  · intro h
    have hr : strStartsWith s "openrouter/" = false :=
      startsWith_excl h (by decide) (by decide)
    have h1 : strStartsWith s "openai/" = false :=
      startsWith_excl h (by decide) (by decide)
    simp [parseModelString, providerPrefixOf, matchProviderEntries,
      directProviderEntries, hr, h1, h]
  · intro h
    have hr : strStartsWith s "openrouter/" = false :=
      startsWith_excl h (by decide) (by decide)
    have h1 : strStartsWith s "openai/" = false :=
      startsWith_excl h (by decide) (by decide)
    have h2 : strStartsWith s "anthropic/" = false :=
      startsWith_excl h (by decide) (by decide)
    simp [parseModelString, providerPrefixOf, matchProviderEntries,
      directProviderEntries, hr, h1, h2, h]
  · intro h
    have hr : strStartsWith s "openrouter/" = false :=
      startsWith_excl h (by decide) (by decide)
    have h1 : strStartsWith s "openai/" = false :=
      startsWith_excl h (by decide) (by decide)
    have h2 : strStartsWith s "anthropic/" = false :=
      startsWith_excl h (by decide) (by decide)
    have h3 : strStartsWith s "google/" = false :=
      startsWith_excl h (by decide) (by decide)
    simp [parseModelString, providerPrefixOf, matchProviderEntries,
      directProviderEntries, hr, h1, h2, h3, h]
  · intro hall
    have h0 := hall ProviderType.openrouter
    have h1 := hall ProviderType.openai
    have h2 := hall ProviderType.anthropic
    have h3 := hall ProviderType.google
    have h4 := hall ProviderType.mistral
    simp only [providerPrefixOf] at h0 h1 h2 h3 h4
    constructor
    · intro hc
      simp [parseModelString, providerPrefixOf, matchProviderEntries,
        directProviderEntries, h0, h1, h2, h3, h4, isProviderConfigured, hc]
    · intro hc
      simp [parseModelString, providerPrefixOf, matchProviderEntries,
        directProviderEntries, h0, h1, h2, h3, h4, isProviderConfigured, hc]
  · intro pm hpm
    obtain ⟨prov, m⟩ := pm
    refine ⟨?_, ?_, ?_⟩
    · intro hcred
      unfold resolveModel
      rw [hpm]
      simp only [Except.bind]
      cases prov <;>
        simp_all [isProviderConfigured, getModelWithFallback, optionToEither]
    · intro hcred hrout
      unfold resolveModel
      rw [hpm]
      simp only [Except.bind]
      cases prov <;>
        simp_all [isProviderConfigured, getModelWithFallback, optionToEither,
          routerPathOf]
    · intro hcred hrout
      unfold resolveModel
      rw [hpm]
      simp only [Except.bind]
      cases prov <;>
        simp_all [isProviderConfigured, getModelWithFallback, optionToEither,
          missingCredentialError]

/-- Witness for C4 at a concrete router-prefixed identifier. -/
theorem c4_resolution_algorithm_witness :
    strStartsWith "openrouter/foo/bar" "openrouter/" = true ∧
    parseModelString ⟨false, false, false, false, false⟩ "openrouter/foo/bar" =
      Except.ok ⟨ProviderType.openrouter, strDrop "openrouter/foo/bar" "openrouter/".length⟩ :=
  ⟨by decide,
   (c4_resolution_algorithm ⟨false, false, false, false, false⟩
      "openrouter/foo/bar").1 (by decide)⟩

/-! ## C5 / C6 — debate orchestrator -/

/-- Bind on a successful `Except` applies the continuation. -/
theorem except_ok_bind {ε α β : Type} (a : α) (g : α → Except ε β) :
    (Except.ok a : Except ε α) >>= g = g a := rfl

/-- Bind on a failed `Except` short-circuits. -/
theorem except_error_bind {ε α β : Type} (e : ε) (g : α → Except ε β) :
    (Except.error e : Except ε α) >>= g = Except.error e := rfl

/-- Appending to a non-empty transcript is plain concatenation. -/
theorem appendBlock_of_ne {x : String} (y : String) (hx : x ≠ "") :
    appendBlock x y = x ++ "\n\n" ++ y := by
  unfold appendBlock
  rw [if_neg hx]

/-- A transcript extended by a non-empty block is non-empty. -/
theorem appendBlock_ne_empty {p b : String} (hb : b ≠ "") :
    appendBlock p b ≠ "" := by
  unfold appendBlock
  split
  · exact hb
  · intro h
    have h2 := congrArg String.length h
    simp only [String.length_append] at h2
    have e1 : ("\n\n" : String).length = 2 := rfl
    have e2 : ("" : String).length = 0 := rfl
    rw [e1, e2] at h2
    omega

/-- A labelled affirmative turn is never the empty string. -/
theorem affLabel_ne_empty (am : String) (r : Nat) (a : String) :
    ("Round " ++ toString r ++ " - Affirmative (" ++ am ++ "):\n" ++ a) ≠ "" := by
  intro h
  have h2 := congrArg String.length h
  simp only [String.length_append] at h2
  have e1 : ("Round " : String).length = 6 := rfl
  have e2 : ("" : String).length = 0 := rfl
  rw [e1, e2] at h2
  omega

/-- `mkRounds` over an extended turn list appends one round record. -/
theorem mkRounds_append (a b : String) (ts : List (String × String)) :
    ∀ r : Nat, mkRounds r (ts ++ [(a, b)]) =
      mkRounds r ts ++ [⟨r + ts.length, a, b⟩] := by
  induction ts with
  | nil => intro r; simp [mkRounds]
  | cons hd tl ih =>
    intro r
    obtain ⟨x, y⟩ := hd
    have harith : r + 1 + tl.length = r + (tl.length + 1) := by omega
    simp [mkRounds, ih (r + 1), harith]

/-- `mkRounds` preserves the number of turns. -/
theorem mkRounds_length (ts : List (String × String)) :
    ∀ r : Nat, (mkRounds r ts).length = ts.length := by
  induction ts with
  | nil => intro r; rfl
  | cons hd tl ih =>
    intro r
    obtain ⟨x, y⟩ := hd
    simp [mkRounds, ih (r + 1)]

/-- The round numbers of `mkRounds r ts` are `r, r+1, ...` in order. -/
theorem mkRounds_map_round (ts : List (String × String)) :
    ∀ r : Nat, (mkRounds r ts).map DebateRound.round = List.range' r ts.length := by
  induction ts with
  | nil => intro r; rfl
  | cons hd tl ih =>
    intro r
    obtain ⟨x, y⟩ := hd
    simp [mkRounds, ih (r + 1), List.range']

/-- Transcript blocks of an extended turn list append the two new
labelled turns. -/
theorem transcriptBlocks_append (am nm a b : String) (ts : List (String × String)) :
    ∀ r : Nat, transcriptBlocks am nm r (ts ++ [(a, b)]) =
      transcriptBlocks am nm r ts ++
        [("Round " ++ toString (r + ts.length) ++ " - Affirmative (" ++ am ++ "):\n" ++ a),
         ("Round " ++ toString (r + ts.length) ++ " - Negative (" ++ nm ++ "):\n" ++ b)] := by
  induction ts with
  | nil => intro r; simp [transcriptBlocks]
  | cons hd tl ih =>
    intro r
    obtain ⟨x, y⟩ := hd
    have harith : r + 1 + tl.length = r + (tl.length + 1) := by omega
    simp [transcriptBlocks, ih (r + 1), harith]

/-- The transcript of an extended turn list appends the two new labelled
turns in order. -/
theorem transcriptOf_append (am nm a b : String) (ts : List (String × String)) :
    transcriptOf am nm (ts ++ [(a, b)]) =
      appendBlock (appendBlock (transcriptOf am nm ts)
          ("Round " ++ toString (1 + ts.length) ++ " - Affirmative (" ++ am ++ "):\n" ++ a))
        ("Round " ++ toString (1 + ts.length) ++ " - Negative (" ++ nm ++ "):\n" ++ b) := by
  unfold transcriptOf
  rw [transcriptBlocks_append am nm a b ts 1, List.foldl_append]
  rfl

/-- With an always-succeeding oracle, `executeRound` extends the state
by one completed round and the two labelled turns, and advances the call
counter by two. -/
theorem executeRound_success (oracle : DebateOracle) (topic am nm : String)
    (numRounds : Nat) (tc : String) (s : DebateState) (round : Nat)
    (h : ∀ i m p, isModelResponse (oracle i m p) = true) :
    ∃ a b : String,
      executeRound oracle topic am nm numRounds tc s round =
        Except.ok
          { rounds := s.rounds ++ [⟨round, a, b⟩],
            previousArguments :=
              appendBlock s.previousArguments
                  ("Round " ++ toString round ++ " - Affirmative (" ++ am ++ "):\n" ++ a) ++
                "\n\n" ++
                ("Round " ++ toString round ++ " - Negative (" ++ nm ++ "):\n" ++ b),
            nextCall := s.nextCall + 2 } := by
  simp only [executeRound]
  split
  next m1 e heq =>
    have hh := congrArg isModelResponse heq
    rw [h] at hh
    simp [isModelResponse] at hh
  next m1 a l1 heq =>
    split
    next m2 e heq2 =>
      have hh := congrArg isModelResponse heq2
      rw [h] at hh
      simp [isModelResponse] at hh
    next m2 b l2 heq2 =>
      exact ⟨a, b, rfl⟩

/-- Invariant of the sequential round fold: starting from a state whose
rounds and transcript come from a turn list `ts`, running `k` more
rounds with an always-succeeding oracle succeeds and yields a state
generated by some extension of `ts` by `k` turns. -/
theorem debate_fold_invariant (oracle : DebateOracle) (topic am nm : String)
    (numRounds : Nat) (tc : String)
    (h : ∀ i m p, isModelResponse (oracle i m p) = true) :
    ∀ (k : Nat) (ts : List (String × String)) (s : DebateState),
      s.rounds = mkRounds 1 ts →
      s.previousArguments = transcriptOf am nm ts →
      ∃ (ts' : List (String × String)) (s' : DebateState),
        (List.range' (ts.length + 1) k).foldlM
            (executeRound oracle topic am nm numRounds tc) s = Except.ok s' ∧
        ts'.length = ts.length + k ∧
        s'.rounds = mkRounds 1 ts' ∧
        s'.previousArguments = transcriptOf am nm ts' := by
  intro k
  induction k with
  | zero =>
    intro ts s h1 h2
    exact ⟨ts, s, rfl, rfl, h1, h2⟩
  | succ k ih =>
    intro ts s h1 h2
    obtain ⟨a, b, hstep⟩ :=
      executeRound_success oracle topic am nm numRounds tc s (ts.length + 1) h
    have haff : appendBlock s.previousArguments
        ("Round " ++ toString (ts.length + 1) ++ " - Affirmative (" ++ am ++ "):\n" ++ a) ≠ "" :=
      appendBlock_ne_empty (affLabel_ne_empty am (ts.length + 1) a)
    have hprev : appendBlock s.previousArguments
          ("Round " ++ toString (ts.length + 1) ++ " - Affirmative (" ++ am ++ "):\n" ++ a) ++
        "\n\n" ++
        ("Round " ++ toString (ts.length + 1) ++ " - Negative (" ++ nm ++ "):\n" ++ b) =
        transcriptOf am nm (ts ++ [(a, b)]) := by
      rw [transcriptOf_append, ← h2]
      have harith : 1 + ts.length = ts.length + 1 := by omega
      rw [harith]
      rw [appendBlock_of_ne _ haff]
    have hrounds : s.rounds ++ [(⟨ts.length + 1, a, b⟩ : DebateRound)] =
        mkRounds 1 (ts ++ [(a, b)]) := by
      rw [mkRounds_append a b ts 1, ← h1]
      have harith : 1 + ts.length = ts.length + 1 := by omega
      rw [harith]
    obtain ⟨ts', s', hfold, hlen, hr, hp⟩ :=
      ih (ts ++ [(a, b)])
        { rounds := s.rounds ++ [⟨ts.length + 1, a, b⟩],
          previousArguments :=
            appendBlock s.previousArguments
                ("Round " ++ toString (ts.length + 1) ++ " - Affirmative (" ++ am ++ "):\n" ++ a) ++
              "\n\n" ++
              ("Round " ++ toString (ts.length + 1) ++ " - Negative (" ++ nm ++ "):\n" ++ b),
          nextCall := s.nextCall + 2 }
        hrounds hprev
    refine ⟨ts', s', ?_, ?_, hr, hp⟩
    · rw [List.range']
      rw [List.foldlM_cons, hstep]
      show ((List.range' (ts.length + 1 + 1) k).foldlM
        (executeRound oracle topic am nm numRounds tc) _) = Except.ok s'
      have harith2 : ts.length + 1 + 1 = (ts ++ [(a, b)]).length + 1 := by
        simp
      rw [harith2]
      exact hfold
    · simp at hlen
      omega

/-- Claim C6: when every query of a debate of `numRounds` rounds
succeeds, the debate returns exactly `numRounds` round records numbered
`1..numRounds` in strictly increasing order, `totalExchanges` is twice
the round count, and the accumulated transcript handed to later turns is
the concatenation of all prior turns' labelled texts in round order,
affirmative before negative within each round. -/
theorem c6_debate_success (oracle : DebateOracle) (topic am nm tc : String)
    (numRounds : Nat) (h : ∀ i m p, isModelResponse (oracle i m p) = true) :
    ∃ (ts : List (String × String)) (fs : DebateState),
      (List.range' 1 numRounds).foldlM
          (executeRound oracle topic am nm numRounds tc) initialDebateState =
        Except.ok fs ∧
      runDebate oracle topic am nm numRounds tc =
        Except.ok ⟨topic, am, nm, fs.rounds, 2 * numRounds⟩ ∧
      ts.length = numRounds ∧
      fs.rounds = mkRounds 1 ts ∧
      fs.rounds.length = numRounds ∧
      fs.rounds.map DebateRound.round = List.range' 1 numRounds ∧
      fs.previousArguments = transcriptOf am nm ts := by
  obtain ⟨ts, fs, hfold, hlen, hr, hp⟩ :=
    debate_fold_invariant oracle topic am nm numRounds tc h numRounds [] initialDebateState
      rfl rfl
  simp only [List.length_nil, Nat.zero_add] at hfold hlen
  refine ⟨ts, fs, hfold, ?_, hlen, hr, ?_, ?_, hp⟩
  · unfold runDebate
    rw [hfold]
    have : numRounds * 2 = 2 * numRounds := by omega
    simp [Except.map, this]
  · rw [hr, mkRounds_length ts 1, hlen]
  · rw [hr, mkRounds_map_round ts 1, hlen]

/-- Witness for C6: a one-round debate with an oracle that always
answers `ok`. -/
theorem c6_debate_success_witness :
    ∃ (ts : List (String × String)) (fs : DebateState),
      (List.range' 1 1).foldlM
          (executeRound (fun _ m _ => QueryResult.success m "ok" 0) "T" "A" "N" 1 "")
          initialDebateState =
        Except.ok fs ∧
      runDebate (fun _ m _ => QueryResult.success m "ok" 0) "T" "A" "N" 1 "" =
        Except.ok ⟨"T", "A", "N", fs.rounds, 2 * 1⟩ ∧
      ts.length = 1 ∧
      fs.rounds = mkRounds 1 ts ∧
      fs.rounds.length = 1 ∧
      fs.rounds.map DebateRound.round = List.range' 1 1 ∧
      fs.previousArguments = transcriptOf "A" "N" ts :=
  c6_debate_success (fun _ m _ => QueryResult.success m "ok" 0) "T" "A" "N" "" 1
    (fun _ _ _ => rfl)

/-- Counterexample to claim C5 as stated: when the negative model fails
on round 2 of 3, the debate aborts with the error
`Negative model failed: boom`, which names the failing side but contains
no digit `2` at all — the surfaced error does not name the round at
which the failure occurred. -/
theorem c5_counterexample :
    runDebate
        (fun i m _ => if i == 3 then QueryResult.failure m "boom"
          else QueryResult.success m "ok" 0)
        "T" "A" "N" 3 "" =
      Except.error ("Negative model failed: " ++ "boom") ∧
    (("Negative model failed: " ++ "boom").toList.contains '2') = false := by
  constructor
  · rfl
  · decide

/-- Whenever `executeRound` rejects, its message is of one of the two
side-naming forms the source produces. -/
theorem executeRound_error_shape (oracle : DebateOracle) (topic am nm : String)
    (numRounds : Nat) (tc : String) (s : DebateState) (round : Nat) (msg : String)
    (h : executeRound oracle topic am nm numRounds tc s round = Except.error msg) :
    (∃ e, msg = "Affirmative model failed: " ++ e) ∨
    (∃ e, msg = "Negative model failed: " ++ e) := by
  simp only [executeRound] at h
  split at h
  next m1 e heq =>
    injection h with h'
    exact Or.inl ⟨e, h'.symm⟩
  next m1 a l1 heq =>
    split at h
    next m2 e heq2 =>
      injection h with h'
      exact Or.inr ⟨e, h'.symm⟩
    next m2 b l2 heq2 =>
      simp at h

/-- Whenever the sequential round fold rejects, the surfaced message is
of one of the two side-naming forms, whichever rounds were attempted. -/
theorem debate_fold_error_shape (oracle : DebateOracle) (topic am nm : String)
    (numRounds : Nat) (tc : String) :
    ∀ (l : List Nat) (s : DebateState) (msg : String),
      l.foldlM (executeRound oracle topic am nm numRounds tc) s =
        Except.error msg →
      (∃ e, msg = "Affirmative model failed: " ++ e) ∨
      (∃ e, msg = "Negative model failed: " ++ e) := by
  intro l
  induction l with
  | nil =>
    intro s msg h
    rw [List.foldlM_nil] at h
    simp [pure, Except.pure] at h
  | cons r l ih =>
    intro s msg h
    rw [List.foldlM_cons] at h
    cases hr : executeRound oracle topic am nm numRounds tc s r with
    | error e0 =>
      rw [hr, except_error_bind] at h
      injection h with h'
      subst h'
      exact executeRound_error_shape oracle topic am nm numRounds tc s r _ hr
    | ok s2 =>
      rw [hr, except_ok_bind] at h
      exact ih s2 msg h

/-- Claim C5 as amended: for every debate in which some turn's query
fails, the whole debate is aborted.  First conjunct: every error the
debate surfaces names which side failed
(`Affirmative model failed: ...` / `Negative model failed: ...`) — and,
per the counterexample, not the round.  Second conjunct: whatever `k`
rounds already completed, if either turn of round `k + 1` fails with
message `msg`, the debate returns exactly `Except.error msg`, an
outcome carrying no `DebateRound` entries — every completed round is
discarded. -/
theorem c5_debate_abort_amended (oracle : DebateOracle) (topic am nm tc : String)
    (numRounds : Nat) :
    (∀ msg, runDebate oracle topic am nm numRounds tc = Except.error msg →
      (∃ e, msg = "Affirmative model failed: " ++ e) ∨
      (∃ e, msg = "Negative model failed: " ++ e)) ∧
    (∀ (k : Nat) (s : DebateState) (msg : String),
      (List.range' 1 k).foldlM (executeRound oracle topic am nm numRounds tc)
          initialDebateState = Except.ok s →
      k < numRounds →
      executeRound oracle topic am nm numRounds tc s (k + 1) = Except.error msg →
      runDebate oracle topic am nm numRounds tc = Except.error msg) := by
  constructor
  · intro msg h
    unfold runDebate at h
    cases hf : (List.range' 1 numRounds).foldlM
        (executeRound oracle topic am nm numRounds tc) initialDebateState with
    | ok fs =>
      rw [hf] at h
      simp [Except.map] at h
    | error e =>
      rw [hf] at h
      simp only [Except.map] at h
      injection h with h'
      subst h'
      exact debate_fold_error_shape oracle topic am nm numRounds tc _ _ _ hf
  · intro k s msg hfold hk hstep
    unfold runDebate
    have hsplit : List.range' 1 numRounds =
        List.range' 1 k ++ List.range' (1 + k) (numRounds - k) := by
      rw [List.range'_append_1]
      congr 1
      omega
    rw [hsplit, List.foldlM_append, hfold, except_ok_bind]
    have hm : numRounds - k = (numRounds - k - 1) + 1 := by omega
    rw [hm, List.range'_succ, List.foldlM_cons]
    have h1k : 1 + k = k + 1 := by omega
    rw [h1k, hstep, except_error_bind]
    rfl

/-- Witness for C5 (amended): an oracle whose very first call fails
makes the affirmative turn of round 1 reject, and a one-round debate
returns exactly that side-naming error with no rounds. -/
theorem c5_debate_abort_amended_witness :
    ((List.range' 1 0).foldlM
        (executeRound (fun _ m _ => QueryResult.failure m "boom") "T" "A" "N" 1 "")
        initialDebateState = Except.ok initialDebateState) ∧
    0 < 1 ∧
    (executeRound (fun _ m _ => QueryResult.failure m "boom") "T" "A" "N" 1 ""
        initialDebateState (0 + 1) =
      Except.error ("Affirmative model failed: " ++ "boom")) ∧
    runDebate (fun _ m _ => QueryResult.failure m "boom") "T" "A" "N" 1 "" =
      Except.error ("Affirmative model failed: " ++ "boom") :=
  ⟨rfl, by decide, rfl,
   (c5_debate_abort_amended (fun _ m _ => QueryResult.failure m "boom")
      "T" "A" "N" "" 1).2 0 initialDebateState
      ("Affirmative model failed: " ++ "boom") rfl (by decide) rfl⟩

end Panel
